import Mathlib

/-
Verification development for the schema-to-example generator (app.py).

The generator is embedded shallowly:
- decoded JSON data (both schema nodes and generated examples) is the
  inductive type `JVal`; Python dicts become association lists in
  insertion order;
- Python exceptions (KeyError on `d[k]`, TypeError on subscripting a
  non-container, the explicit `raise` in `generate_example`) become
  `Except.error`;
- `random.choice` becomes an explicit supply of draw indices (`Rand`):
  each call consumes one natural number n and picks element `n mod len`
  of its literal pool, so every reachable random outcome corresponds to
  some supply;
- the mutual recursion between the array and object example builders is
  closed with a fuel parameter (`genFns`): fuel is consumed once per
  nested composite level, and every run of the Python code that
  terminates is reproduced exactly by any sufficiently large fuel.
  Fuel exhaustion surfaces as the distinct error "recursion limit".

One divergence from CPython, noted here once: a membership test
`key in v` where `v` is not a dict is modelled as `false`, whereas
Python raises TypeError for non-container values (and does a substring
or element test for strings and lists). In every such spot the model
and the interpreter still agree on success versus failure of the whole
call, because the model subsequently subscripts the non-dict value and
fails there; only the error message differs.
-/

namespace SchemaToExample

/-- Generic decoded JSON data: the input schema nodes and the generated
example values both live in this type. Objects keep insertion order,
matching Python dict iteration order. -/
inductive JVal where
  | null : JVal
  | bool : Bool → JVal
  | int : Int → JVal
  | num : ℚ → JVal
  | str : String → JVal
  | arr : List JVal → JVal
  | obj : List (String × JVal) → JVal
deriving Repr

/-- First-match association-list lookup: Python `d[k]` / `k in d` on a
dict with unique keys. -/
def lookupKey : List (String × JVal) → String → Option JVal
  | [], _ => none
  | (k, v) :: rest, key => if k = key then some v else lookupKey rest key

/-- Python `k in d` for a schema node. -/
def JVal.hasKey (v : JVal) (k : String) : Bool :=
  match v with
  | .obj kvs => (lookupKey kvs k).isSome
  | _ => false

/-- Python `k in d` followed by `d[k]`, as an Option. -/
def JVal.findKey : JVal → String → Option JVal
  | .obj kvs, k => lookupKey kvs k
  | _, _ => none

/-- Python subscripting `d[k]`: KeyError when the key is absent,
TypeError when the value is not a dict (in particular when it is None,
the result of a failed `$ref` resolution). -/
def JVal.index : JVal → String → Except String JVal
  | .obj kvs, k =>
    match lookupKey kvs k with
    | some v => Except.ok v
    | none => Except.error ("KeyError: " ++ k)
  | .null, _ => Except.error "TypeError: NoneType object is not subscriptable"
  | _, _ => Except.error "TypeError: value is not subscriptable"

/-- Python truthiness of a decoded JSON value. -/
def JVal.truthy : JVal → Bool
  | .null => false
  | .bool b => b
  | .int n => n != 0
  | .num q => q != 0
  | .str s => s != ""
  | .arr xs => !xs.isEmpty
  | .obj kvs => !kvs.isEmpty

/-- Python `v == "s"` where v is an arbitrary decoded value: true only
when v is that very string. -/
def JVal.strEq : JVal → String → Bool
  | .str t, s => t == s
  | _, _ => false

def JVal.isStr : JVal → Bool
  | .str _ => true
  | _ => false

def JVal.isInt : JVal → Bool
  | .int _ => true
  | _ => false

def JVal.isNum : JVal → Bool
  | .num _ => true
  | _ => false

def JVal.isBool : JVal → Bool
  | .bool _ => true
  | _ => false

def JVal.isArr : JVal → Bool
  | .arr _ => true
  | _ => false

def JVal.isObj : JVal → Bool
  | .obj _ => true
  | _ => false

/- Keywords read by the generator (class JsonSchemaKeyword). -/
namespace JsonSchemaKeyword

def ID : String := "$id"
def TYPE : String := "type"
def PROPERTIES : String := "properties"
def REQUIRED : String := "required"
def MINIMUM : String := "minimum"
def MAXIMUM : String := "maximum"
def DEFINITIONS : String := "definitions"
def REF : String := "$ref"
def ITEMS : String := "items"

end JsonSchemaKeyword

/- Supported data-type tags (class DataType). In the source
`NULL = OBJECT = "object"`: the null/default tag IS the object tag. -/
namespace DataType

def INTEGER : String := "integer"
def STRING : String := "string"
def BOOLEAN : String := "boolean"
def NUMBER : String := "number"
def OBJECT : String := "object"
def NULL : String := OBJECT
def ARRAY : String := "array"

end DataType

/-- A node in the generated example (class Node): its data-type tag and
its generated value. -/
structure Node where
  type : JVal
  value : JVal
deriving Repr

/-- Node construction `Node(type=t)`: the value defaults to that of an
object, the empty dict. -/
def Node.new (type : JVal) : Node := { type := type, value := JVal.obj [] }

/-- The random supply: the sequence of indices the successive
`random.choice` calls will use. -/
abbrev Rand := List Nat

/-- Consume one draw from the supply (0 once exhausted; an infinite
actual random stream corresponds to a long enough finite supply). -/
def next : Rand → Nat × Rand
  | [] => (0, [])
  | n :: r => (n, r)

/-- `random.choice(xs)` driven by draw index n: element n mod length.
Every element is picked by some n, matching a uniform choice's support. -/
def choice {α : Type} (xs : List α) (d : α) (n : Nat) : α :=
  xs.getD (n % xs.length) d

/-- The literal pool of generate_string_example. -/
def stringExamples : List String :=
  ["a", "abc", "this-is-an-example_string", "what", "why?", "where?",
   "kangaroo", "praire", "savanah", "jungle", "earth", "mars", "Buggati",
   "Mercedes", "Mark Johnson", "Ron F Swanson", "Chris Pratt",
   "Guradians of Galaxy", "Zingaro!"]

/-- The literal pool of generate_integer_example. -/
def integerExamples : List Int :=
  [0, 1, 2, 3, 4, 5, 6, 7, 8, 9, 10, 100, 999, 1000, 2121, 9845, 9943,
   1983, 1984, 4405, 1020]

/-- The literal pool of generate_number_example. -/
def numberExamples : List ℚ :=
  [1.000, 2.903, 3.1416, 4.24, 5.25, 1020000.000]

/-- The literal pool of generate_boolean_example. -/
def booleanExamples : List Bool := [true, false]

def generate_string_example (r : Rand) : String × Rand :=
  (choice stringExamples "a" (next r).1, (next r).2)

def generate_integer_example (r : Rand) : Int × Rand :=
  (choice integerExamples 0 (next r).1, (next r).2)

def generate_number_example (r : Rand) : ℚ × Rand :=
  (choice numberExamples 1 (next r).1, (next r).2)

def generate_boolean_example (r : Rand) : Bool × Rand :=
  (choice booleanExamples true (next r).1, (next r).2)

/-- Python `ref.split("/")` for the single-character separator, over the
character list, with the accumulator holding the current segment
reversed. Like str.split, the result is never empty. -/
def splitSlashAux : List Char → List Char → List String
  | [], acc => [String.mk acc.reverse]
  | c :: cs, acc =>
    if c = '/' then String.mk acc.reverse :: splitSlashAux cs []
    else splitSlashAux cs (c :: acc)

def splitSlash (s : String) : List String := splitSlashAux s.data []

/-- resolve_ref: split the reference on "/", take the last segment, and
look it up in the definitions; absent keys give None (JVal.null), no
error. Errors arise only from un-Pythonic operand shapes (split on a
non-string, membership test in a non-container). -/
def resolve_ref (ref : JVal) (definitions : JVal) : Except String JVal :=
  match ref with
  | .str s =>
    let key := (splitSlash s).getLastD ""
    match definitions with
    | .obj kvs =>
      match lookupKey kvs key with
      | some v => Except.ok v
      | none => Except.ok JVal.null
    | .null => Except.error "TypeError: argument of type NoneType is not iterable"
    | _ => Except.error "TypeError: unsupported membership test"
  | _ => Except.error "AttributeError: split is only available on strings"

/-- The pair of example builders at a given recursion depth: the array
builder and the object builder (their results are the raw list / dict
before being stored into a Node's value). -/
structure GenSig where
  arrEx : JVal → JVal → Rand → Except String (List JVal × Rand)
  objEx : JVal → JVal → Rand → Except String (List (String × JVal) × Rand)

/-- Lines 209-216 of generate_array_example: the element type is
items["type"] (read unconditionally, so a missing "type" key is a
KeyError even when "$ref" is present), overridden by the resolved
schema's "type" when a truthy "$ref" is carried. -/
def arrayElemType (items definitions : JVal) : Except String JVal :=
  match items.index JsonSchemaKeyword.TYPE with
  | Except.error e => Except.error e
  | Except.ok type0 =>
    match items.findKey JsonSchemaKeyword.REF with
    | some rv =>
      if rv.truthy then
        match resolve_ref rv definitions with
        | Except.error e => Except.error e
        | Except.ok schema => schema.index JsonSchemaKeyword.TYPE
      else Except.ok type0
    | none => Except.ok type0

/-- The loop body of generate_array_example: synthesize one element of
the given type (the Node's value after the dispatch chain; unmatched
types leave the default empty dict). -/
def genArrayItem (g : GenSig) (type items definitions : JVal) (r : Rand) :
    Except String (JVal × Rand) :=
  if type.strEq DataType.STRING then
    Except.ok (JVal.str (generate_string_example r).1, (generate_string_example r).2)
  else if type.strEq DataType.INTEGER then
    Except.ok (JVal.int (generate_integer_example r).1, (generate_integer_example r).2)
  else if type.strEq DataType.NUMBER then
    Except.ok (JVal.num (generate_number_example r).1, (generate_number_example r).2)
  else if type.strEq DataType.BOOLEAN then
    Except.ok (JVal.bool (generate_boolean_example r).1, (generate_boolean_example r).2)
  else if type.strEq DataType.ARRAY then
    match items.index JsonSchemaKeyword.ITEMS with
    | Except.error e => Except.error e
    | Except.ok items2 =>
      match g.arrEx items2 definitions r with
      | Except.error e => Except.error e
      | Except.ok (xs, r) => Except.ok (JVal.arr xs, r)
  else if type.strEq DataType.OBJECT then
    match items.index JsonSchemaKeyword.PROPERTIES with
    | Except.error e => Except.error e
    | Except.ok props =>
      match g.objEx props definitions r with
      | Except.error e => Except.error e
      | Except.ok (m, r) => Except.ok (JVal.obj m, r)
  else Except.ok (JVal.obj [], r)

/-- `for i in range(0, item_count)`: build item_count elements in order,
threading the random supply. -/
def genArrayItems (g : GenSig) (count : Nat) (type items definitions : JVal)
    (r : Rand) : Except String (List JVal × Rand) :=
  match count with
  | 0 => Except.ok ([], r)
  | c + 1 =>
    match genArrayItem g type items definitions r with
    | Except.error e => Except.error e
    | Except.ok (v, r) =>
      match genArrayItems g c type items definitions r with
      | Except.error e => Except.error e
      | Except.ok (vs, r) => Except.ok (v :: vs, r)

/-- Lines 250-259 of generate_object_example: the property's type (its
"type" key, defaulting to the null tag, which IS "object"), and, when a
truthy "$ref" is carried, the resolved schema's "type" together with
the resolved schema's "properties" when defined (props stays None
otherwise). -/
def propTypeProps (v definitions : JVal) : Except String (JVal × Option JVal) :=
  let type0 := match v.findKey JsonSchemaKeyword.TYPE with
    | some t => t
    | none => JVal.str DataType.NULL
  match v.findKey JsonSchemaKeyword.REF with
  | some rv =>
    if rv.truthy then
      match resolve_ref rv definitions with
      | Except.error e => Except.error e
      | Except.ok schema =>
        match schema.index JsonSchemaKeyword.TYPE with
        | Except.error e => Except.error e
        | Except.ok t =>
          Except.ok (t, schema.findKey JsonSchemaKeyword.PROPERTIES)
    else Except.ok (type0, none)
  | none => Except.ok (type0, none)

/-- The resolved type of a property schema (first component of
propTypeProps). -/
def propType (v definitions : JVal) : Except String JVal :=
  match propTypeProps v definitions with
  | Except.error e => Except.error e
  | Except.ok (t, _) => Except.ok t

/-- The loop body of generate_object_example: generate one property's
value. The object branch recurses into `v["properties"] if not props
else props` - Python truthiness, so a falsy resolved props (None or an
empty dict) falls back to the locally-declared properties. -/
def genProp (g : GenSig) (v definitions : JVal) (r : Rand) :
    Except String (JVal × Rand) :=
  match propTypeProps v definitions with
  | Except.error e => Except.error e
  | Except.ok (type, props) =>
    if type.strEq DataType.STRING then
      Except.ok (JVal.str (generate_string_example r).1, (generate_string_example r).2)
    else if type.strEq DataType.INTEGER then
      Except.ok (JVal.int (generate_integer_example r).1, (generate_integer_example r).2)
    else if type.strEq DataType.NUMBER then
      Except.ok (JVal.num (generate_number_example r).1, (generate_number_example r).2)
    else if type.strEq DataType.BOOLEAN then
      Except.ok (JVal.bool (generate_boolean_example r).1, (generate_boolean_example r).2)
    else if type.strEq DataType.ARRAY then
      match v.index JsonSchemaKeyword.ITEMS with
      | Except.error e => Except.error e
      | Except.ok items =>
        match g.arrEx items definitions r with
        | Except.error e => Except.error e
        | Except.ok (xs, r) => Except.ok (JVal.arr xs, r)
    else if type.strEq DataType.OBJECT then
      match (match props with
             | some p =>
               if p.truthy then Except.ok p
               else v.index JsonSchemaKeyword.PROPERTIES
             | none => v.index JsonSchemaKeyword.PROPERTIES) with
      | Except.error e => Except.error e
      | Except.ok p =>
        match g.objEx p definitions r with
        | Except.error e => Except.error e
        | Except.ok (m, r) => Except.ok (JVal.obj m, r)
    else Except.ok (JVal.obj [], r)

/-- `for k, v in properties.items()`: generate every property in
insertion order and insert it under its own key. -/
def genObjLoop (g : GenSig) (kvs : List (String × JVal)) (definitions : JVal)
    (r : Rand) : Except String (List (String × JVal) × Rand) :=
  match kvs with
  | [] => Except.ok ([], r)
  | (k, v) :: rest =>
    match genProp g v definitions r with
    | Except.error e => Except.error e
    | Except.ok (val, r) =>
      match genObjLoop g rest definitions r with
      | Except.error e => Except.error e
      | Except.ok (m, r) => Except.ok ((k, val) :: m, r)

/-- One level of the two builders, given the builders for the next
nesting depth. arrEx is generate_array_example (lines 199-236): draw
the item count first, determine the element type, then run the loop.
objEx is generate_object_example (lines 239-280): iterate the
properties dict (AttributeError when it is not a dict). -/
def genStep (g : GenSig) : GenSig where
  arrEx := fun items definitions r =>
    let item_count := choice [0, 1, 2, 3] 0 (next r).1
    match arrayElemType items definitions with
    | Except.error e => Except.error e
    | Except.ok type => genArrayItems g item_count type items definitions (next r).2
  objEx := fun properties definitions r =>
    match properties with
    | .obj kvs => genObjLoop g kvs definitions r
    | _ => Except.error "AttributeError: object has no attribute items"

/-- The builders closed off at a given fuel (maximum composite nesting
depth). -/
def genFns : Nat → GenSig
  | 0 =>
    { arrEx := fun _ _ _ => Except.error "recursion limit"
      objEx := fun _ _ _ => Except.error "recursion limit" }
  | n + 1 => genStep (genFns n)

/-- generate_array_example(items, definitions), at the given fuel. -/
def generate_array_example (fuel : Nat) (items definitions : JVal) (r : Rand) :
    Except String (List JVal × Rand) :=
  (genFns fuel).arrEx items definitions r

/-- generate_object_example(properties, definitions), at the given fuel. -/
def generate_object_example (fuel : Nat) (properties definitions : JVal)
    (r : Rand) : Except String (List (String × JVal) × Rand) :=
  (genFns fuel).objEx properties definitions r

/-- generate_example(json_schema): reject a falsy schema, read its
"type" (KeyError when absent), dispatch on the six known tags, and fall
through to a Node with the default empty-object value otherwise. The
array and object branches subscript json_schema["items"] /
json_schema["properties"] and json_schema["definitions"]
unconditionally, in argument order. -/
def generate_example (fuel : Nat) (json_schema : JVal) (r : Rand) :
    Except String (Node × Rand) :=
  if json_schema.truthy = false then
    Except.error "Expected a JSON schema, none found!"
  else
    match json_schema.index JsonSchemaKeyword.TYPE with
    | Except.error e => Except.error e
    | Except.ok type =>
      if type.strEq DataType.STRING then
        Except.ok ({ type := type, value := JVal.str (generate_string_example r).1 },
          (generate_string_example r).2)
      else if type.strEq DataType.INTEGER then
        Except.ok ({ type := type, value := JVal.int (generate_integer_example r).1 },
          (generate_integer_example r).2)
      else if type.strEq DataType.NUMBER then
        Except.ok ({ type := type, value := JVal.num (generate_number_example r).1 },
          (generate_number_example r).2)
      else if type.strEq DataType.BOOLEAN then
        Except.ok ({ type := type, value := JVal.bool (generate_boolean_example r).1 },
          (generate_boolean_example r).2)
      else if type.strEq DataType.ARRAY then
        match json_schema.index JsonSchemaKeyword.ITEMS with
        | Except.error e => Except.error e
        | Except.ok items =>
          match json_schema.index JsonSchemaKeyword.DEFINITIONS with
          | Except.error e => Except.error e
          | Except.ok defs =>
            match generate_array_example fuel items defs r with
            | Except.error e => Except.error e
            | Except.ok (xs, r) =>
              Except.ok ({ type := type, value := JVal.arr xs }, r)
      else if type.strEq DataType.OBJECT then
        match json_schema.index JsonSchemaKeyword.PROPERTIES with
        | Except.error e => Except.error e
        | Except.ok props =>
          match json_schema.index JsonSchemaKeyword.DEFINITIONS with
          | Except.error e => Except.error e
          | Except.ok defs =>
            match generate_object_example fuel props defs r with
            | Except.error e => Except.error e
            | Except.ok (m, r) =>
              Except.ok ({ type := type, value := JVal.obj m }, r)
      else Except.ok ({ type := type, value := JVal.obj [] }, r)

/-- Conformance of a generated value to a (resolved) type tag, per the
dispatch chain: each recognized tag demands its own kind of value, and
any other tag (including the absent-type default, which is the object
tag itself) demands the empty-object default, a mapping. -/
def conforms (t val : JVal) : Bool :=
  if t.strEq DataType.STRING then val.isStr
  else if t.strEq DataType.INTEGER then val.isInt
  else if t.strEq DataType.NUMBER then val.isNum
  else if t.strEq DataType.BOOLEAN then val.isBool
  else if t.strEq DataType.ARRAY then val.isArr
  else val.isObj

/-- Drop every "$ref" entry from a schema node's key list: the node "as
if no reference were carried at all". -/
def eraseRef (kvs : List (String × JVal)) : List (String × JVal) :=
  kvs.filter (fun kv => kv.1 != JsonSchemaKeyword.REF)

/-
Ref-free well-formedness, indexed by the same fuel discipline as genFns:
`arrSafe n items` / `objSafe n pm` guarantee that the builders of
`genFns n` succeed on these inputs for every definitions table and
every random supply, and `propSafe n v` the same for one property's
generation at depth n. No node carries a truthy "$ref", every composite
node has the keys its branch subscripts, and the nesting is at most n
composite levels deep.
-/

mutual

def arrSafe : Nat → JVal → Bool
  | 0, _ => false
  | n + 1, JVal.obj ikvs =>
    (match lookupKey ikvs JsonSchemaKeyword.REF with
     | some rv => !rv.truthy
     | none => true) &&
    (match lookupKey ikvs JsonSchemaKeyword.TYPE with
     | none => false
     | some t =>
       if t.strEq DataType.ARRAY then
         match lookupKey ikvs JsonSchemaKeyword.ITEMS with
         | some its => arrSafe n its
         | none => false
       else if t.strEq DataType.OBJECT then
         match lookupKey ikvs JsonSchemaKeyword.PROPERTIES with
         | some pm => objSafe n pm
         | none => false
       else true)
  | _ + 1, _ => false
termination_by n _ => (n, 0, 0)

def objSafe : Nat → JVal → Bool
  | 0, _ => false
  | n + 1, JVal.obj pkvs => propListSafe n pkvs
  | _ + 1, _ => false
termination_by n _ => (n, 0, 0)

def propListSafe : Nat → List (String × JVal) → Bool
  | _, [] => true
  | n, (_, v) :: rest => propSafe n v && propListSafe n rest
termination_by n l => (n, 2, l.length)

def propSafe : Nat → JVal → Bool
  | n, JVal.obj kvs =>
    (match lookupKey kvs JsonSchemaKeyword.REF with
     | some rv => !rv.truthy
     | none => true) &&
    (let t := match lookupKey kvs JsonSchemaKeyword.TYPE with
       | some t => t
       | none => JVal.str DataType.NULL
     if t.strEq DataType.ARRAY then
       match lookupKey kvs JsonSchemaKeyword.ITEMS with
       | some its => arrSafe n its
       | none => false
     else if t.strEq DataType.OBJECT then
       match lookupKey kvs JsonSchemaKeyword.PROPERTIES with
       | some pm => objSafe n pm
       | none => false
     else true)
  | _, _ => false
termination_by n _ => (n, 1, 0)

end

/-- Success of a builder pair on all safe inputs, for any definitions
table and any random supply. -/
def GenOk (g : GenSig) (n : Nat) : Prop :=
  (∀ items defs r, arrSafe n items = true →
    ∃ xs r', g.arrEx items defs r = Except.ok (xs, r')) ∧
  (∀ pm defs r, objSafe n pm = true →
    ∃ m r', g.objEx pm defs r = Except.ok (m, r'))

/-
Helper lemmas shared by the claim theorems below.
-/

lemma eraseRef_cons (k1 : String) (v1 : JVal) (rest : List (String × JVal)) :
    eraseRef ((k1, v1) :: rest)
      = if k1 = JsonSchemaKeyword.REF then eraseRef rest
        else (k1, v1) :: eraseRef rest := by
  by_cases h : k1 = JsonSchemaKeyword.REF <;> simp [eraseRef, List.filter_cons, h]

lemma lookupKey_eraseRef_ne (kvs : List (String × JVal)) (k : String)
    (hk : k ≠ JsonSchemaKeyword.REF) :
    lookupKey (eraseRef kvs) k = lookupKey kvs k := by
  induction kvs with
  | nil => simp [eraseRef, lookupKey]
  | cons kv rest ih =>
    obtain ⟨k1, v1⟩ := kv
    rw [eraseRef_cons]
    by_cases h1 : k1 = JsonSchemaKeyword.REF
    · subst h1
      have hne : JsonSchemaKeyword.REF ≠ k := fun hc => hk hc.symm
      simp [lookupKey, hne, ih]
    · simp [h1, lookupKey, ih]

lemma lookupKey_eraseRef_ref (kvs : List (String × JVal)) :
    lookupKey (eraseRef kvs) JsonSchemaKeyword.REF = none := by
  induction kvs with
  | nil => simp [eraseRef, lookupKey]
  | cons kv rest ih =>
    obtain ⟨k1, v1⟩ := kv
    rw [eraseRef_cons]
    by_cases h1 : k1 = JsonSchemaKeyword.REF
    · simp [h1, ih]
    · simp [h1, lookupKey, ih]

lemma index_eraseRef (kvs : List (String × JVal)) (k : String)
    (hk : k ≠ JsonSchemaKeyword.REF) :
    (JVal.obj (eraseRef kvs)).index k = (JVal.obj kvs).index k := by
  simp [JVal.index, lookupKey_eraseRef_ne kvs k hk]

lemma propTypeProps_eraseRef (kvs : List (String × JVal)) (rv defs : JVal)
    (href : lookupKey kvs JsonSchemaKeyword.REF = some rv)
    (hf : rv.truthy = false) :
    propTypeProps (JVal.obj (eraseRef kvs)) defs
      = propTypeProps (JVal.obj kvs) defs := by
  simp [propTypeProps, JVal.findKey, lookupKey_eraseRef_ref, href, hf,
    lookupKey_eraseRef_ne kvs JsonSchemaKeyword.TYPE (by decide)]

lemma genProp_eraseRef (g : GenSig) (kvs : List (String × JVal)) (rv defs : JVal)
    (r : Rand) (href : lookupKey kvs JsonSchemaKeyword.REF = some rv)
    (hf : rv.truthy = false) :
    genProp g (JVal.obj (eraseRef kvs)) defs r
      = genProp g (JVal.obj kvs) defs r := by
  simp only [genProp, propTypeProps_eraseRef kvs rv defs href hf,
    index_eraseRef kvs JsonSchemaKeyword.ITEMS (by decide),
    index_eraseRef kvs JsonSchemaKeyword.PROPERTIES (by decide)]

lemma arrayElemType_eraseRef (kvs : List (String × JVal)) (rv defs : JVal)
    (href : lookupKey kvs JsonSchemaKeyword.REF = some rv)
    (hf : rv.truthy = false) :
    arrayElemType (JVal.obj (eraseRef kvs)) defs
      = arrayElemType (JVal.obj kvs) defs := by
  simp [arrayElemType, JVal.findKey, lookupKey_eraseRef_ref, href, hf,
    index_eraseRef kvs JsonSchemaKeyword.TYPE (by decide)]

lemma genArrayItem_eraseRef (g : GenSig) (type : JVal) (kvs : List (String × JVal))
    (defs : JVal) (r : Rand) :
    genArrayItem g type (JVal.obj (eraseRef kvs)) defs r
      = genArrayItem g type (JVal.obj kvs) defs r := by
  simp only [genArrayItem,
    index_eraseRef kvs JsonSchemaKeyword.ITEMS (by decide),
    index_eraseRef kvs JsonSchemaKeyword.PROPERTIES (by decide)]

lemma genArrayItems_eraseRef (g : GenSig) (count : Nat) (type : JVal)
    (kvs : List (String × JVal)) (defs : JVal) (r : Rand) :
    genArrayItems g count type (JVal.obj (eraseRef kvs)) defs r
      = genArrayItems g count type (JVal.obj kvs) defs r := by
  induction count generalizing r with
  | zero => simp [genArrayItems]
  | succ c ih =>
    simp only [genArrayItems, genArrayItem_eraseRef]
    cases genArrayItem g type (JVal.obj kvs) defs r with
    | error e => rfl
    | ok vr => cases vr with
      | mk v r1 => simp only [ih]

lemma genArrayItem_conforms (g : GenSig) (type items defs : JVal) (r : Rand)
    (val : JVal) (r' : Rand)
    (h : genArrayItem g type items defs r = Except.ok (val, r')) :
    conforms type val = true := by
  unfold genArrayItem at h
  split_ifs at h with h1 h2 h3 h4 h5 h6
  · simp only [Except.ok.injEq, Prod.mk.injEq] at h
    obtain ⟨hv, -⟩ := h
    subst hv
    simp [conforms, h1, JVal.isStr]
  · simp only [Except.ok.injEq, Prod.mk.injEq] at h
    obtain ⟨hv, -⟩ := h
    subst hv
    simp [conforms, h1, h2, JVal.isInt]
  · simp only [Except.ok.injEq, Prod.mk.injEq] at h
    obtain ⟨hv, -⟩ := h
    subst hv
    simp [conforms, h1, h2, h3, JVal.isNum]
  · simp only [Except.ok.injEq, Prod.mk.injEq] at h
    obtain ⟨hv, -⟩ := h
    subst hv
    simp [conforms, h1, h2, h3, h4, JVal.isBool]
  · split at h
    · simp at h
    · split at h
      · simp at h
      · simp only [Except.ok.injEq, Prod.mk.injEq] at h
        obtain ⟨hv, -⟩ := h
        subst hv
        simp [conforms, h1, h2, h3, h4, h5, JVal.isArr]
  · split at h
    · simp at h
    · split at h
      · simp at h
      · simp only [Except.ok.injEq, Prod.mk.injEq] at h
        obtain ⟨hv, -⟩ := h
        subst hv
        simp [conforms, h1, h2, h3, h4, h5, JVal.isObj]
  · simp only [Except.ok.injEq, Prod.mk.injEq] at h
    obtain ⟨hv, -⟩ := h
    subst hv
    simp [conforms, h1, h2, h3, h4, h5, JVal.isObj]

lemma genArrayItems_len_conforms (g : GenSig) (count : Nat) (type items defs : JVal) :
    ∀ r xs r', genArrayItems g count type items defs r = Except.ok (xs, r') →
      xs.length = count ∧ ∀ x ∈ xs, conforms type x = true := by
  induction count with
  | zero =>
    intro r xs r' h
    simp only [genArrayItems, Except.ok.injEq, Prod.mk.injEq] at h
    obtain ⟨hv, -⟩ := h
    subst hv
    simp
  | succ c ih =>
    intro r xs r' h
    unfold genArrayItems at h
    cases h1 : genArrayItem g type items defs r with
    | error e => rw [h1] at h; simp at h
    | ok vr =>
      obtain ⟨v, r1⟩ := vr
      rw [h1] at h
      dsimp only at h
      cases h2 : genArrayItems g c type items defs r1 with
      | error e => rw [h2] at h; simp at h
      | ok vsr =>
        obtain ⟨vs, r2⟩ := vsr
        rw [h2] at h
        dsimp only at h
        simp only [Except.ok.injEq, Prod.mk.injEq] at h
        obtain ⟨hv, -⟩ := h
        subst hv
        obtain ⟨hlen, hall⟩ := ih r1 vs r2 h2
        refine ⟨by simp [hlen], ?_⟩
        intro x hx
        rcases List.mem_cons.mp hx with hx | hx
        · subst hx; exact genArrayItem_conforms g type items defs r x r1 h1
        · exact hall x hx

lemma choice0123_le (n : Nat) : choice [0, 1, 2, 3] 0 n ≤ 3 := by
  have h4 : n % 4 < 4 := Nat.mod_lt _ (by norm_num)
  have hcases : n % 4 = 0 ∨ n % 4 = 1 ∨ n % 4 = 2 ∨ n % 4 = 3 := by omega
  rcases hcases with h | h | h | h <;> simp [choice, h]

lemma genProp_ok (g : GenSig) (v defs : JVal) (r : Rand) (val : JVal) (r' : Rand)
    (h : genProp g v defs r = Except.ok (val, r')) :
    ∃ t, propType v defs = Except.ok t ∧ conforms t val = true := by
  unfold genProp at h
  cases hp : propTypeProps v defs with
  | error e => rw [hp] at h; simp at h
  | ok tp =>
    obtain ⟨t, props⟩ := tp
    rw [hp] at h
    dsimp only at h
    refine ⟨t, by simp [propType, hp], ?_⟩
    split_ifs at h with h1 h2 h3 h4 h5 h6
    · simp only [Except.ok.injEq, Prod.mk.injEq] at h
      obtain ⟨hv, -⟩ := h
      subst hv
      simp [conforms, h1, JVal.isStr]
    · simp only [Except.ok.injEq, Prod.mk.injEq] at h
      obtain ⟨hv, -⟩ := h
      subst hv
      simp [conforms, h1, h2, JVal.isInt]
    · simp only [Except.ok.injEq, Prod.mk.injEq] at h
      obtain ⟨hv, -⟩ := h
      subst hv
      simp [conforms, h1, h2, h3, JVal.isNum]
    · simp only [Except.ok.injEq, Prod.mk.injEq] at h
      obtain ⟨hv, -⟩ := h
      subst hv
      simp [conforms, h1, h2, h3, h4, JVal.isBool]
    · split at h
      · simp at h
      · split at h
        · simp at h
        · simp only [Except.ok.injEq, Prod.mk.injEq] at h
          obtain ⟨hv, -⟩ := h
          subst hv
          simp [conforms, h1, h2, h3, h4, h5, JVal.isArr]
    · split at h
      · simp at h
      · split at h
        · simp at h
        · simp only [Except.ok.injEq, Prod.mk.injEq] at h
          obtain ⟨hv, -⟩ := h
          subst hv
          simp [conforms, h1, h2, h3, h4, h5, JVal.isObj]
    · simp only [Except.ok.injEq, Prod.mk.injEq] at h
      obtain ⟨hv, -⟩ := h
      subst hv
      simp [conforms, h1, h2, h3, h4, h5, JVal.isObj]

lemma genObjLoop_keys_conform (g : GenSig) (kvs : List (String × JVal)) (defs : JVal) :
    ∀ r out r', genObjLoop g kvs defs r = Except.ok (out, r') →
      out.map Prod.fst = kvs.map Prod.fst ∧
      List.Forall₂ (fun kv ov : String × JVal =>
        ∃ t, propType kv.2 defs = Except.ok t ∧ conforms t ov.2 = true) kvs out := by
  induction kvs with
  | nil =>
    intro r out r' h
    simp only [genObjLoop, Except.ok.injEq, Prod.mk.injEq] at h
    obtain ⟨hv, -⟩ := h
    subst hv
    simp
  | cons kv rest ih =>
    intro r out r' h
    obtain ⟨k, v⟩ := kv
    unfold genObjLoop at h
    cases h1 : genProp g v defs r with
    | error e => rw [h1] at h; simp at h
    | ok vr =>
      obtain ⟨val, r1⟩ := vr
      rw [h1] at h
      dsimp only at h
      cases h2 : genObjLoop g rest defs r1 with
      | error e => rw [h2] at h; simp at h
      | ok mr =>
        obtain ⟨m, r2⟩ := mr
        rw [h2] at h
        dsimp only at h
        simp only [Except.ok.injEq, Prod.mk.injEq] at h
        obtain ⟨hv, -⟩ := h
        subst hv
        obtain ⟨hkeys, hconf⟩ := ih r1 m r2 h2
        refine ⟨by simp [hkeys], ?_⟩
        exact List.Forall₂.cons (genProp_ok g v defs r val r1 h1) hconf

lemma arrSafe_obj (n : Nat) (v : JVal) (h : arrSafe (n + 1) v = true) :
    ∃ ikvs, v = JVal.obj ikvs := by
  cases v with
  | obj ikvs => exact ⟨ikvs, rfl⟩
  | null => simp [arrSafe] at h
  | bool b => simp [arrSafe] at h
  | int i => simp [arrSafe] at h
  | num q => simp [arrSafe] at h
  | str s => simp [arrSafe] at h
  | arr xs => simp [arrSafe] at h

lemma objSafe_obj (n : Nat) (v : JVal) (h : objSafe (n + 1) v = true) :
    ∃ pkvs, v = JVal.obj pkvs ∧ propListSafe n pkvs = true := by
  cases v with
  | obj pkvs => rw [objSafe] at h; exact ⟨pkvs, rfl, h⟩
  | null => simp [objSafe] at h
  | bool b => simp [objSafe] at h
  | int i => simp [objSafe] at h
  | num q => simp [objSafe] at h
  | str s => simp [objSafe] at h
  | arr xs => simp [objSafe] at h

lemma arrSafe_elemType (n : Nat) (ikvs : List (String × JVal)) (defs : JVal)
    (h : arrSafe (n + 1) (JVal.obj ikvs) = true) :
    ∃ t, lookupKey ikvs JsonSchemaKeyword.TYPE = some t ∧
      arrayElemType (JVal.obj ikvs) defs = Except.ok t := by
  rw [arrSafe] at h
  rw [Bool.and_eq_true] at h
  obtain ⟨h1, h2⟩ := h
  cases hT : lookupKey ikvs JsonSchemaKeyword.TYPE with
  | none => rw [hT] at h2; simp at h2
  | some t =>
    refine ⟨t, rfl, ?_⟩
    cases hR : lookupKey ikvs JsonSchemaKeyword.REF with
    | none => simp [arrayElemType, JVal.index, JVal.findKey, hT, hR]
    | some rv =>
      rw [hR] at h1
      simp only [Bool.not_eq_true'] at h1
      simp [arrayElemType, JVal.index, JVal.findKey, hT, hR, h1]

lemma genProp_safe (g : GenSig) (n : Nat) (hg : GenOk g n) (v defs : JVal)
    (r : Rand) (hs : propSafe n v = true) :
    ∃ val r', genProp g v defs r = Except.ok (val, r') := by
  cases v with
  | obj kvs =>
    rw [propSafe] at hs
    rw [Bool.and_eq_true] at hs
    obtain ⟨h1, h2⟩ := hs
    have hptp : propTypeProps (JVal.obj kvs) defs
        = Except.ok ((match lookupKey kvs JsonSchemaKeyword.TYPE with
            | some t => t
            | none => JVal.str DataType.NULL), none) := by
      cases hR : lookupKey kvs JsonSchemaKeyword.REF with
      | none => simp [propTypeProps, JVal.findKey, hR]
      | some rv =>
        rw [hR] at h1
        simp only [Bool.not_eq_true'] at h1
        simp [propTypeProps, JVal.findKey, hR, h1]
    simp only [genProp, hptp]
    dsimp only at h2 ⊢
    split_ifs with hc1 hc2 hc3 hc4 hc5 hc6
    · exact ⟨_, _, rfl⟩
    · exact ⟨_, _, rfl⟩
    · exact ⟨_, _, rfl⟩
    · exact ⟨_, _, rfl⟩
    · rw [if_pos hc5] at h2
      cases hI : lookupKey kvs JsonSchemaKeyword.ITEMS with
      | none => rw [hI] at h2; simp at h2
      | some its =>
        rw [hI] at h2
        obtain ⟨xs, r', hxs⟩ := hg.1 its defs r h2
        refine ⟨JVal.arr xs, r', ?_⟩
        simp [JVal.index, hI, hxs]
    · rw [if_neg hc5, if_pos hc6] at h2
      cases hP : lookupKey kvs JsonSchemaKeyword.PROPERTIES with
      | none => rw [hP] at h2; simp at h2
      | some pm =>
        rw [hP] at h2
        obtain ⟨m, r', hm⟩ := hg.2 pm defs r h2
        refine ⟨JVal.obj m, r', ?_⟩
        simp [JVal.index, hP, hm]
    · exact ⟨_, _, rfl⟩
  | null => simp [propSafe] at hs
  | bool b => simp [propSafe] at hs
  | int i => simp [propSafe] at hs
  | num q => simp [propSafe] at hs
  | str s => simp [propSafe] at hs
  | arr xs => simp [propSafe] at hs

lemma genObjLoop_safe (g : GenSig) (n : Nat) (hg : GenOk g n)
    (kvs : List (String × JVal)) :
    ∀ defs r, propListSafe n kvs = true →
      ∃ out r', genObjLoop g kvs defs r = Except.ok (out, r') := by
  induction kvs with
  | nil => intro defs r _; exact ⟨[], r, rfl⟩
  | cons kv rest ih =>
    intro defs r h
    obtain ⟨k, v⟩ := kv
    rw [propListSafe, Bool.and_eq_true] at h
    obtain ⟨h1, h2⟩ := h
    obtain ⟨val, r1, hv⟩ := genProp_safe g n hg v defs r h1
    obtain ⟨m, r2, hm⟩ := ih defs r1 h2
    exact ⟨(k, val) :: m, r2, by simp [genObjLoop, hv, hm]⟩

lemma genArrayItem_safe (g : GenSig) (n : Nat) (hg : GenOk g n)
    (ikvs : List (String × JVal)) (defs : JVal) (t : JVal)
    (hsafe : arrSafe (n + 1) (JVal.obj ikvs) = true)
    (hT : lookupKey ikvs JsonSchemaKeyword.TYPE = some t) :
    ∀ r, ∃ val r', genArrayItem g t (JVal.obj ikvs) defs r = Except.ok (val, r') := by
  intro r
  rw [arrSafe, Bool.and_eq_true] at hsafe
  obtain ⟨h1, h2⟩ := hsafe
  rw [hT] at h2
  dsimp only at h2
  unfold genArrayItem
  split_ifs with hc1 hc2 hc3 hc4 hc5 hc6
  · exact ⟨_, _, rfl⟩
  · exact ⟨_, _, rfl⟩
  · exact ⟨_, _, rfl⟩
  · exact ⟨_, _, rfl⟩
  · rw [if_pos hc5] at h2
    cases hI : lookupKey ikvs JsonSchemaKeyword.ITEMS with
    | none => rw [hI] at h2; simp at h2
    | some its =>
      rw [hI] at h2
      obtain ⟨xs, r', hxs⟩ := hg.1 its defs r h2
      exact ⟨JVal.arr xs, r', by simp [JVal.index, hI, hxs]⟩
  · rw [if_neg hc5, if_pos hc6] at h2
    cases hP : lookupKey ikvs JsonSchemaKeyword.PROPERTIES with
    | none => rw [hP] at h2; simp at h2
    | some pm =>
      rw [hP] at h2
      obtain ⟨m, r', hm⟩ := hg.2 pm defs r h2
      exact ⟨JVal.obj m, r', by simp [JVal.index, hP, hm]⟩
  · exact ⟨_, _, rfl⟩

lemma genArrayItems_safe (g : GenSig) (count : Nat) (t items defs : JVal)
    (hitem : ∀ r, ∃ val r', genArrayItem g t items defs r = Except.ok (val, r')) :
    ∀ r, ∃ xs r', genArrayItems g count t items defs r = Except.ok (xs, r') := by
  induction count with
  | zero => intro r; exact ⟨[], r, rfl⟩
  | succ c ih =>
    intro r
    obtain ⟨val, r1, hv⟩ := hitem r
    obtain ⟨xs, r2, hxs⟩ := ih r1
    exact ⟨val :: xs, r2, by simp [genArrayItems, hv, hxs]⟩

lemma genFns_ok : ∀ n, GenOk (genFns n) n := by
  intro n
  induction n with
  | zero =>
    constructor
    · intro items defs r h; simp [arrSafe] at h
    · intro pm defs r h; simp [objSafe] at h
  | succ n ih =>
    constructor
    · intro items defs r h
      obtain ⟨ikvs, rfl⟩ := arrSafe_obj n items h
      obtain ⟨t, hT, hET⟩ := arrSafe_elemType n ikvs defs h
      obtain ⟨xs, r', hxs⟩ := genArrayItems_safe (genFns n)
        (choice [0, 1, 2, 3] 0 (next r).1) t (JVal.obj ikvs) defs
        (genArrayItem_safe (genFns n) n ih ikvs defs t h hT) (next r).2
      exact ⟨xs, r', by simp only [genFns, genStep, hET, hxs]⟩
    · intro pm defs r h
      obtain ⟨pkvs, rfl, hpl⟩ := objSafe_obj n pm h
      obtain ⟨out, r', hout⟩ := genObjLoop_safe (genFns n) n ih pkvs defs r hpl
      exact ⟨out, r', by simp only [genFns, genStep, hout]⟩

/-
Claim theorems. Each claim of the specification gets one theorem (plus,
where needed, a counterexample against the claim's original wording and
a witness instantiating the theorem at a concrete input).
-/

/-- Claim C1: whenever the object example builder returns a mapping, that
mapping has exactly one entry per input property, keyed identically and
in the same order (so the key sets coincide), and each entry's value
conforms to the property's resolved type, regardless of any required
list (which the builder never reads). -/
theorem generate_object_example_keys_conform (fuel : Nat)
    (kvs : List (String × JVal)) (defs : JVal) (r r' : Rand)
    (out : List (String × JVal))
    (h : generate_object_example fuel (JVal.obj kvs) defs r = Except.ok (out, r')) :
    out.map Prod.fst = kvs.map Prod.fst ∧
    List.Forall₂ (fun kv ov : String × JVal =>
      ∃ t, propType kv.2 defs = Except.ok t ∧ conforms t ov.2 = true) kvs out := by
  cases fuel with
  | zero => simp [generate_object_example, genFns] at h
  | succ n =>
    simp only [generate_object_example, genFns, genStep] at h
    exact genObjLoop_keys_conform (genFns n) kvs defs r out r' h

/-- Witness for C1: the one-integer-property schema generates a mapping
with exactly the key "n" and an integer value. -/
theorem generate_object_example_keys_conform_witness :
    ([("n", JVal.int 3)] : List (String × JVal)).map Prod.fst
        = ([("n", JVal.obj [("type", JVal.str "integer")])]
            : List (String × JVal)).map Prod.fst ∧
    List.Forall₂ (fun kv ov : String × JVal =>
      ∃ t, propType kv.2 (JVal.obj []) = Except.ok t ∧ conforms t ov.2 = true)
      [("n", JVal.obj [("type", JVal.str "integer")])] [("n", JVal.int 3)] :=
  generate_object_example_keys_conform 1
    [("n", JVal.obj [("type", JVal.str "integer")])] (JVal.obj []) [3] []
    [("n", JVal.int 3)] rfl

/-- Claim C2: whenever the array example builder returns a sequence, its
length is the item count drawn first from the pool 0, 1, 2, 3 (so the
length is at most 3, and 0 is a legitimate outcome), and every element
conforms to the resolved element type. -/
theorem generate_array_example_length_conforms (fuel : Nat) (items defs : JVal)
    (r : Rand) (xs : List JVal) (r' : Rand)
    (h : generate_array_example fuel items defs r = Except.ok (xs, r')) :
    xs.length = choice [0, 1, 2, 3] 0 (next r).1 ∧ xs.length ≤ 3 ∧
    ∃ t, arrayElemType items defs = Except.ok t ∧ ∀ x ∈ xs, conforms t x = true := by
  cases fuel with
  | zero => simp [generate_array_example, genFns] at h
  | succ n =>
    simp only [generate_array_example, genFns, genStep] at h
    cases ht : arrayElemType items defs with
    | error e => rw [ht] at h; simp at h
    | ok t =>
      rw [ht] at h
      obtain ⟨hlen, hall⟩ := genArrayItems_len_conforms (genFns n) _ t items defs _ xs r' h
      exact ⟨hlen, hlen ▸ choice0123_le (next r).1, t, rfl, hall⟩

/-- Witness for C2: a string-element array drawn with count index 6
(count 2) yields a 2-element sequence of pool strings. -/
theorem generate_array_example_length_conforms_witness :
    ([JVal.str "abc", JVal.str "this-is-an-example_string"] : List JVal).length
        = choice [0, 1, 2, 3] 0 (next [6, 1, 2]).1 ∧
    ([JVal.str "abc", JVal.str "this-is-an-example_string"] : List JVal).length ≤ 3 ∧
    ∃ t, arrayElemType (JVal.obj [("type", JVal.str "string")]) (JVal.obj [])
        = Except.ok t ∧
      ∀ x ∈ ([JVal.str "abc", JVal.str "this-is-an-example_string"] : List JVal),
        conforms t x = true :=
  generate_array_example_length_conforms 1 (JVal.obj [("type", JVal.str "string")])
    (JVal.obj []) [6, 1, 2] [JVal.str "abc", JVal.str "this-is-an-example_string"] [] rfl

/-- Counterexample to C3 as stated: an items node carrying only a $ref
and no inline "type" is NOT handled by reference resolution; the builder
reads items["type"] unconditionally first and the whole call fails with
a key lookup error, even though the referenced definition exists. -/
theorem generate_array_example_ref_only_raises :
    generate_array_example 2 (JVal.obj [("$ref", JVal.str "#/definitions/X")])
      (JVal.obj [("X", JVal.obj [("type", JVal.str "string")])]) [1]
      = Except.error "KeyError: type" := rfl

/-- Claim C3 (amended): the element type is read from items["type"]
unconditionally, so the "type" key must be present; when a truthy $ref
is also carried, the resolved schema's "type" overrides the inline one;
with no $ref (or a falsy one) the inline type is used; and when "type"
is absent the element-type computation and the whole array builder fail
with the same key lookup error even if a $ref is present. -/
theorem array_item_type_resolution (kvs : List (String × JVal)) (defs : JVal) :
    (∀ t0 rv, lookupKey kvs JsonSchemaKeyword.TYPE = some t0 →
      lookupKey kvs JsonSchemaKeyword.REF = some rv → rv.truthy = true →
      arrayElemType (JVal.obj kvs) defs
        = (resolve_ref rv defs).bind (fun schema => schema.index JsonSchemaKeyword.TYPE)) ∧
    (∀ t0, lookupKey kvs JsonSchemaKeyword.TYPE = some t0 →
      (∀ rv, lookupKey kvs JsonSchemaKeyword.REF = some rv → rv.truthy = false) →
      arrayElemType (JVal.obj kvs) defs = Except.ok t0) ∧
    (lookupKey kvs JsonSchemaKeyword.TYPE = none →
      arrayElemType (JVal.obj kvs) defs
          = Except.error ("KeyError: " ++ JsonSchemaKeyword.TYPE) ∧
      ∀ fuel r, generate_array_example (fuel + 1) (JVal.obj kvs) defs r
          = Except.error ("KeyError: " ++ JsonSchemaKeyword.TYPE)) := by
  refine ⟨?_, ?_, ?_⟩
  · intro t0 rv hty href htru
    cases hres : resolve_ref rv defs <;>
      simp [arrayElemType, JVal.index, JVal.findKey, hty, href, htru, hres, Except.bind]
  · intro t0 hty hnoref
    cases href : lookupKey kvs JsonSchemaKeyword.REF with
    | none => simp [arrayElemType, JVal.index, JVal.findKey, hty, href]
    | some rv =>
      have := hnoref rv href
      simp [arrayElemType, JVal.index, JVal.findKey, hty, href, this]
  · intro hty
    constructor
    · simp [arrayElemType, JVal.index, hty]
    · intro fuel r
      simp [generate_array_example, genFns, genStep, arrayElemType, JVal.index, hty]

/-- Witness for C3: at an items node with only a $ref, both the
element-type computation and the builder fail with the "type" lookup
error. -/
theorem array_item_type_resolution_witness :
    arrayElemType (JVal.obj [("$ref", JVal.str "#/definitions/X")])
        (JVal.obj [("X", JVal.obj [("type", JVal.str "string")])])
      = Except.error "KeyError: type" ∧
    generate_array_example 3 (JVal.obj [("$ref", JVal.str "#/definitions/X")])
        (JVal.obj [("X", JVal.obj [("type", JVal.str "string")])]) [2]
      = Except.error "KeyError: type" := by
  have h := (array_item_type_resolution [("$ref", JVal.str "#/definitions/X")]
    (JVal.obj [("X", JVal.obj [("type", JVal.str "string")])])).2.2 rfl
  exact ⟨h.1, h.2 2 [2]⟩

/-- Counterexample to C4 as stated: when the resolved schema defines an
EMPTY nested properties mapping, the builder does not use it; Python
truthiness makes it fall back to the locally-declared properties, so the
output is the locally-generated mapping rather than the empty one the
claim demands. -/
theorem ref_empty_resolved_props_falls_back :
    generate_object_example 3
      (JVal.obj [("x", JVal.obj [("$ref", JVal.str "#/definitions/E"),
        ("properties", JVal.obj [("a", JVal.obj [("type", JVal.str "integer")])])])])
      (JVal.obj [("E", JVal.obj [("type", JVal.str "object"),
        ("properties", JVal.obj [])])])
      [5]
      = Except.ok ([("x", JVal.obj [("a", JVal.int 5)])], []) ∧
    JVal.obj [("a", JVal.int 5)] ≠ JVal.obj [] := by
  refine ⟨rfl, ?_⟩
  simp

/-- Claim C4 (amended): for a property carrying a truthy $ref that
resolves to a schema of type object with a non-empty (truthy) nested
properties mapping, the property's generation IS the object builder run
on those resolved nested properties (the type is overridden and the
resolved properties are used instead of any locally-declared ones); a
falsy resolved properties mapping instead falls back to the local ones. -/
theorem ref_object_property_uses_resolved_props (fuel : Nat)
    (kvs : List (String × JVal)) (rv schema P defs : JVal) (r : Rand)
    (href : lookupKey kvs JsonSchemaKeyword.REF = some rv)
    (htr : rv.truthy = true)
    (hres : resolve_ref rv defs = Except.ok schema)
    (hty : schema.index JsonSchemaKeyword.TYPE = Except.ok (JVal.str DataType.OBJECT))
    (hpr : schema.findKey JsonSchemaKeyword.PROPERTIES = some P)
    (hPt : P.truthy = true) :
    genProp (genFns fuel) (JVal.obj kvs) defs r
      = Except.map (fun mr : List (String × JVal) × Rand => (JVal.obj mr.1, mr.2))
          (generate_object_example fuel P defs r) := by
  have href2 : (JVal.obj kvs).findKey JsonSchemaKeyword.REF = some rv := by
    simp [JVal.findKey, href]
  have hptp : propTypeProps (JVal.obj kvs) defs
      = Except.ok (JVal.str DataType.OBJECT, some P) := by
    simp [propTypeProps, href2, htr, hres, hty, hpr]
  simp only [genProp, hptp]
  simp only [JVal.strEq, DataType.STRING, DataType.INTEGER, DataType.NUMBER,
    DataType.BOOLEAN, DataType.ARRAY, DataType.OBJECT, hPt]
  norm_num
  cases hgen : (genFns fuel).objEx P defs r with
  | error e => simp [generate_object_example, hgen, Except.map]
  | ok mr =>
    obtain ⟨m, r2⟩ := mr
    simp [generate_object_example, hgen, Except.map]

/-- Witness for C4: scenario D, a property that is purely a $ref to the
Point definition generates exactly the object built from Point's two
number properties. -/
theorem ref_object_property_uses_resolved_props_witness :
    genProp (genFns 2) (JVal.obj [("$ref", JVal.str "#/definitions/Point")])
        (JVal.obj [("Point", JVal.obj [("type", JVal.str "object"),
          ("properties", JVal.obj [("x", JVal.obj [("type", JVal.str "number")]),
            ("y", JVal.obj [("type", JVal.str "number")])])])]) [1, 2]
      = Except.map (fun mr : List (String × JVal) × Rand => (JVal.obj mr.1, mr.2))
          (generate_object_example 2
            (JVal.obj [("x", JVal.obj [("type", JVal.str "number")]),
              ("y", JVal.obj [("type", JVal.str "number")])])
            (JVal.obj [("Point", JVal.obj [("type", JVal.str "object"),
              ("properties", JVal.obj [("x", JVal.obj [("type", JVal.str "number")]),
                ("y", JVal.obj [("type", JVal.str "number")])])])]) [1, 2]) :=
  ref_object_property_uses_resolved_props 2
    [("$ref", JVal.str "#/definitions/Point")]
    (JVal.str "#/definitions/Point")
    (JVal.obj [("type", JVal.str "object"),
      ("properties", JVal.obj [("x", JVal.obj [("type", JVal.str "number")]),
        ("y", JVal.obj [("type", JVal.str "number")])])])
    (JVal.obj [("x", JVal.obj [("type", JVal.str "number")]),
      ("y", JVal.obj [("type", JVal.str "number")])])
    (JVal.obj [("Point", JVal.obj [("type", JVal.str "object"),
      ("properties", JVal.obj [("x", JVal.obj [("type", JVal.str "number")]),
        ("y", JVal.obj [("type", JVal.str "number")])])])])
    [1, 2] rfl rfl rfl rfl rfl rfl

/-- Counterexample to C5 as stated: a non-empty top-level schema whose
"type" field is ABSENT does not produce a default Example node; the
dispatcher subscripts json_schema["type"] unconditionally and the call
fails with a key lookup error. -/
theorem generate_example_missing_type_raises :
    generate_example 1 (JVal.obj [("properties",
      JVal.obj [("n", JVal.obj [("type", JVal.str "integer")])])]) []
      = Except.error "KeyError: type" := rfl

/-- Claim C5 (amended): for every non-empty top-level schema whose
"type" field is PRESENT but holds any tag other than the six recognized
ones, generate_example returns an Example node carrying that tag and
the default empty-object value, without error and without consuming
randomness; an absent "type" instead raises a lookup error. -/
theorem generate_example_unknown_type_default (fuel : Nat)
    (kvs : List (String × JVal)) (t : JVal) (r : Rand)
    (hty : lookupKey kvs JsonSchemaKeyword.TYPE = some t)
    (h1 : t.strEq DataType.STRING = false) (h2 : t.strEq DataType.INTEGER = false)
    (h3 : t.strEq DataType.NUMBER = false) (h4 : t.strEq DataType.BOOLEAN = false)
    (h5 : t.strEq DataType.ARRAY = false) (h6 : t.strEq DataType.OBJECT = false) :
    generate_example fuel (JVal.obj kvs) r
      = Except.ok ({ type := t, value := JVal.obj [] }, r) := by
  have htr : (JVal.obj kvs).truthy = true := by
    cases kvs with
    | nil => simp [lookupKey] at hty
    | cons a l => simp [JVal.truthy]
  simp [generate_example, htr, JVal.index, hty, h1, h2, h3, h4, h5, h6]

/-- Witness for C5: the unrecognized tag "null" (the null tag is NOT a
dispatch case; the internal null constant is the string "object") yields
the default empty-object Example node. -/
theorem generate_example_unknown_type_default_witness :
    generate_example 1 (JVal.obj [("type", JVal.str "null")]) []
      = Except.ok ({ type := JVal.str "null", value := JVal.obj [] }, []) :=
  generate_example_unknown_type_default 1 _ _ [] rfl rfl rfl rfl rfl rfl rfl

/-- Claim C6: a falsy top-level schema (absent, i.e. None, or an empty
mapping, or any other falsy input) is rejected up front with the
explicit invalid-input error, before any generation work or random draw
happens, so no partial output exists. -/
theorem generate_example_rejects_empty (fuel : Nat) (json_schema : JVal) (r : Rand)
    (h : json_schema.truthy = false) :
    generate_example fuel json_schema r
      = Except.error "Expected a JSON schema, none found!" := by
  simp [generate_example, h]

/-- Witness for C6: both the absent schema and the empty mapping are
rejected with the invalid-input error. -/
theorem generate_example_rejects_empty_witness :
    generate_example 1 JVal.null [] = Except.error "Expected a JSON schema, none found!" ∧
    generate_example 1 (JVal.obj []) [] = Except.error "Expected a JSON schema, none found!" :=
  ⟨generate_example_rejects_empty 1 JVal.null [] rfl,
   generate_example_rejects_empty 1 (JVal.obj []) [] rfl⟩

/-- Claim C7: for every reference string and definitions mapping,
resolve_ref looks up the final path segment after the last "/" and
returns the found schema node, or the absent result (None) when the key
is missing - always a successful return, never an error. -/
theorem resolve_ref_total (s : String) (kvs : List (String × JVal)) :
    resolve_ref (JVal.str s) (JVal.obj kvs)
      = Except.ok ((lookupKey kvs ((splitSlash s).getLastD "")).getD JVal.null) := by
  cases h : lookupKey kvs ((splitSlash s).getLastD "") <;>
    simp only [resolve_ref, h, Option.getD_some, Option.getD_none]

/-- Claim C8: a $ref whose final segment is absent from the definitions
table resolves to the absent result (None), and each builder's
subsequent field access on that absent result turns into the NoneType
subscript failure that aborts the whole generation run, for any fuel,
property name and random supply. -/
theorem dangling_ref_propagates (s : String) (dkvs : List (String × JVal))
    (hs : s ≠ "")
    (habs : lookupKey dkvs ((splitSlash s).getLastD "") = none) :
    resolve_ref (JVal.str s) (JVal.obj dkvs) = Except.ok JVal.null ∧
    (∀ fuel k r, generate_object_example (fuel + 1)
        (JVal.obj [(k, JVal.obj [("$ref", JVal.str s)])]) (JVal.obj dkvs) r
      = Except.error "TypeError: NoneType object is not subscriptable") ∧
    (∀ fuel r, generate_array_example (fuel + 1)
        (JVal.obj [("type", JVal.str "integer"), ("$ref", JVal.str s)]) (JVal.obj dkvs) r
      = Except.error "TypeError: NoneType object is not subscriptable") := by
  have hres : resolve_ref (JVal.str s) (JVal.obj dkvs) = Except.ok JVal.null := by
    simp only [resolve_ref, habs]
  have htru : (JVal.str s).truthy = true := by
    simp [JVal.truthy, hs]
  refine ⟨hres, ?_, ?_⟩
  · intro fuel k r
    simp [generate_object_example, genFns, genStep, genObjLoop, genProp,
      propTypeProps, JVal.findKey, lookupKey, htru, hres, JVal.index,
      JsonSchemaKeyword.REF, JsonSchemaKeyword.TYPE, JsonSchemaKeyword.ITEMS,
      JsonSchemaKeyword.PROPERTIES]
  · intro fuel r
    simp [generate_array_example, genFns, genStep, arrayElemType,
      JVal.findKey, lookupKey, htru, hres, JVal.index,
      JsonSchemaKeyword.REF, JsonSchemaKeyword.TYPE, JsonSchemaKeyword.ITEMS,
      JsonSchemaKeyword.PROPERTIES]

/-- Witness for C8: the unresolvable reference "#/definitions/Missing"
resolves to None and both builders fail with the NoneType subscript
error. -/
theorem dangling_ref_propagates_witness :
    resolve_ref (JVal.str "#/definitions/Missing") (JVal.obj []) = Except.ok JVal.null ∧
    generate_object_example 1
        (JVal.obj [("p", JVal.obj [("$ref", JVal.str "#/definitions/Missing")])])
        (JVal.obj []) []
      = Except.error "TypeError: NoneType object is not subscriptable" ∧
    generate_array_example 1
        (JVal.obj [("type", JVal.str "integer"), ("$ref", JVal.str "#/definitions/Missing")])
        (JVal.obj []) []
      = Except.error "TypeError: NoneType object is not subscriptable" := by
  have h := dangling_ref_propagates "#/definitions/Missing" [] (by decide) rfl
  exact ⟨h.1, h.2.1 0 "p" [], h.2.2 0 []⟩

/-- Counterexample to C9 as stated: a completely $ref-free top-level
object schema without a "definitions" key does NOT complete
successfully; generate_example subscripts json_schema["definitions"]
unconditionally in the object branch and fails with a key lookup
error. -/
theorem generate_example_missing_definitions_raises :
    generate_example 2 (JVal.obj [("type", JVal.str "object"),
      ("properties", JVal.obj [("n", JVal.obj [("type", JVal.str "integer")])])]) []
      = Except.error "KeyError: definitions" := rfl

/-- Claim C9 (amended): the "definitions" key is required, not optional,
for composite top-level schemas; but once it is present (with any
value, e.g. an empty mapping), a top-level object schema with $ref-free
well-formed properties (respectively an array schema with a $ref-free
well-formed items node) generates successfully - the definitions table
is never dereferenced without a truthy $ref. -/
theorem generate_example_reffree_success (n : Nat) (skvs : List (String × JVal))
    (sub D : JVal) (r : Rand)
    (hd : lookupKey skvs JsonSchemaKeyword.DEFINITIONS = some D) :
    (lookupKey skvs JsonSchemaKeyword.TYPE = some (JVal.str DataType.OBJECT) →
     lookupKey skvs JsonSchemaKeyword.PROPERTIES = some sub →
     objSafe n sub = true →
     ∃ node r', generate_example n (JVal.obj skvs) r = Except.ok (node, r')) ∧
    (lookupKey skvs JsonSchemaKeyword.TYPE = some (JVal.str DataType.ARRAY) →
     lookupKey skvs JsonSchemaKeyword.ITEMS = some sub →
     arrSafe n sub = true →
     ∃ node r', generate_example n (JVal.obj skvs) r = Except.ok (node, r')) := by
  have htr : (JVal.obj skvs).truthy = true := by
    cases skvs with
    | nil => simp [lookupKey] at hd
    | cons a l => simp [JVal.truthy]
  constructor
  · intro hty hp hsafe
    obtain ⟨m, r', hm⟩ := (genFns_ok n).2 sub D r hsafe
    refine ⟨{ type := JVal.str DataType.OBJECT, value := JVal.obj m }, r', ?_⟩
    simp [generate_example, htr, JVal.index, hty, hp, hd, JVal.strEq,
      DataType.STRING, DataType.INTEGER, DataType.NUMBER, DataType.BOOLEAN,
      DataType.ARRAY, DataType.OBJECT, generate_object_example, hm]
  · intro hty hp hsafe
    obtain ⟨xs, r', hxs⟩ := (genFns_ok n).1 sub D r hsafe
    refine ⟨{ type := JVal.str DataType.ARRAY, value := JVal.arr xs }, r', ?_⟩
    simp [generate_example, htr, JVal.index, hty, hp, hd, JVal.strEq,
      DataType.STRING, DataType.INTEGER, DataType.NUMBER, DataType.BOOLEAN,
      DataType.ARRAY, DataType.OBJECT, generate_array_example, hxs]

/-- Witness for C9: the same ref-free object schema that fails without
"definitions" succeeds once an (empty) definitions mapping is added. -/
theorem generate_example_reffree_success_witness :
    ∃ node r', generate_example 2 (JVal.obj [("type", JVal.str "object"),
      ("properties", JVal.obj [("n", JVal.obj [("type", JVal.str "integer")])]),
      ("definitions", JVal.obj [])]) [0] = Except.ok (node, r') := by
  have h := (generate_example_reffree_success 2
    [("type", JVal.str "object"),
     ("properties", JVal.obj [("n", JVal.obj [("type", JVal.str "integer")])]),
     ("definitions", JVal.obj [])]
    (JVal.obj [("n", JVal.obj [("type", JVal.str "integer")])]) (JVal.obj []) [0] rfl).1
  exact h rfl rfl (by
    simp [objSafe, propListSafe, propSafe, lookupKey, JVal.strEq,
      JsonSchemaKeyword.TYPE, JsonSchemaKeyword.REF, JsonSchemaKeyword.ITEMS,
      JsonSchemaKeyword.PROPERTIES, DataType.NULL, DataType.OBJECT, DataType.ARRAY,
      DataType.STRING, DataType.INTEGER, DataType.NUMBER, DataType.BOOLEAN])

/-- Claim C10: a "$ref" entry holding a falsy value (empty string, or
any other falsy value) is ignored by both builders: the property and
items generation behave exactly as on the same node with every "$ref"
entry erased (inline type or the null default is used, and no
resolution against the definitions table is attempted). -/
theorem falsy_ref_ignored (fuel : Nat) (kvs : List (String × JVal)) (rv defs : JVal)
    (r : Rand) (href : lookupKey kvs JsonSchemaKeyword.REF = some rv)
    (hf : rv.truthy = false) :
    genProp (genFns fuel) (JVal.obj kvs) defs r
      = genProp (genFns fuel) (JVal.obj (eraseRef kvs)) defs r ∧
    generate_array_example (fuel + 1) (JVal.obj kvs) defs r
      = generate_array_example (fuel + 1) (JVal.obj (eraseRef kvs)) defs r := by
  constructor
  · exact (genProp_eraseRef (genFns fuel) kvs rv defs r href hf).symm
  · simp only [generate_array_example, genFns, genStep,
      arrayElemType_eraseRef kvs rv defs href hf,
      genArrayItems_eraseRef]

/-- Witness for C10: a node with an empty-string $ref generates exactly
like the same node without the $ref entry. -/
theorem falsy_ref_ignored_witness :
    genProp (genFns 1) (JVal.obj [("type", JVal.str "integer"), ("$ref", JVal.str "")])
        (JVal.obj []) [2]
      = genProp (genFns 1)
          (JVal.obj (eraseRef [("type", JVal.str "integer"), ("$ref", JVal.str "")]))
          (JVal.obj []) [2] ∧
    generate_array_example 2
        (JVal.obj [("type", JVal.str "integer"), ("$ref", JVal.str "")]) (JVal.obj []) [2]
      = generate_array_example 2
          (JVal.obj (eraseRef [("type", JVal.str "integer"), ("$ref", JVal.str "")]))
          (JVal.obj []) [2] :=
  falsy_ref_ignored 1 [("type", JVal.str "integer"), ("$ref", JVal.str "")]
    (JVal.str "") (JVal.obj []) [2] rfl rfl

end SchemaToExample
